import Mathlib

/-!
Verification of the Dial espresso recipe engine (`lib/algorithm.ts`).

The engine is a pure function from an equipment profile, bean attributes,
brew targets and weather to a recipe.  JavaScript numbers are modelled as
rationals (`ℚ`); the only place the code distinguishes non-finite numbers
(`Number.isFinite`) is the micron-to-step conversion, which we model with
an explicit `JsNum` type.  `Math.round` rounds half toward positive
infinity, i.e. `⌊x + 1/2⌋`.  Static reference tables (origins, varietals,
blend profiles) are injected as lookup functions returning the
`extractionModifier` of a matching entry, mirroring `Array.find` on the
JSON data.  String-only fields (brand, model, reasoning text, tips) carry
no numeric information and are omitted.
-/

namespace Dialing

/-- Roast levels, ordered light to dark (`RoastLevel` in `lib/types.ts`). -/
inductive RoastLevel where
  | light
  | mediumLight
  | medium
  | mediumDark
  | dark
deriving DecidableEq, Repr

/-- Position of a roast level in the documented light→dark order. -/
def roastIdx : RoastLevel → ℕ
  | RoastLevel.light => 0
  | RoastLevel.mediumLight => 1
  | RoastLevel.medium => 2
  | RoastLevel.mediumDark => 3
  | RoastLevel.dark => 4

/-- Process methods (`ProcessMethod` in `lib/types.ts`). -/
inductive ProcessMethod where
  | washed
  | natural
  | honey
  | anaerobic
  | other
deriving DecidableEq, Repr

/-- Boiler types (`BoilerType` in `lib/types.ts`); not used numerically. -/
inductive BoilerType where
  | single
  | dual
  | thermoblock
  | thermocoil
deriving DecidableEq, Repr

/-- Burr types (`BurrType` in `lib/types.ts`). -/
inductive BurrType where
  | flat
  | conical
deriving DecidableEq, Repr

/-- Stepped versus stepless grinders (`SteppedOrStepless`). -/
inductive SteppedOrStepless where
  | stepped
  | stepless
deriving DecidableEq, Repr

/-- Basket types (`BasketType` in `lib/types.ts`). -/
inductive BasketType where
  | pressurized
  | nonPressurized
  | precision
deriving DecidableEq, Repr

/-- Taste preferences (`TastePreference` in `lib/types.ts`). -/
inductive TastePreference where
  | balanced
  | body
  | sweetness
  | bright
deriving DecidableEq, Repr

/-- Confidence levels (`Confidence` in `lib/types.ts`). -/
inductive Confidence where
  | high
  | medium
  | low
deriving DecidableEq, Repr

/-- Bean types (`BeanType` in `lib/types.ts`). -/
inductive BeanType where
  | singleOrigin
  | blend
deriving DecidableEq, Repr

/-- Blend profiles (`BlendProfile` in `lib/types.ts`). -/
inductive BlendProfile where
  | classic
  | brightFruity
  | balanced
  | darkBold
  | unknown
deriving DecidableEq, Repr

/-- Machine types (`MachineType` in `lib/types.ts`). -/
inductive MachineType where
  | e61
  | hx
  | saturated
  | leverSpring
  | leverManual
  | other
deriving DecidableEq, Repr

/-- Espresso machine (`Machine` in `lib/types.ts`; brand/model strings omitted). -/
structure Machine where
  machineType : MachineType
  pumpPressureBars : ℚ
  boilerType : BoilerType
  groupHeadSizeMm : ℚ
  hasPreInfusion : Bool
  hasPID : Bool
  waterDebitMlPerMin : ℚ
  warmupMinutes : Option ℚ
deriving DecidableEq, Repr

/-- Grinder (`Grinder` in `lib/types.ts`; brand/model strings omitted). -/
structure Grinder where
  burrType : BurrType
  burrSizeMm : ℚ
  rpm : ℚ
  espressoRangeMin : ℚ
  espressoRangeMax : ℚ
  totalSettings : ℚ
  steppedOrStepless : SteppedOrStepless
  micronPerStep : Option ℚ
deriving DecidableEq, Repr

/-- Portafilter basket (`Basket` in `lib/types.ts`). -/
structure Basket where
  basketType : BasketType
  sizeMm : ℚ
  capacityMinG : ℚ
  capacityMaxG : ℚ
  isBottomless : Bool
deriving DecidableEq, Repr

/-- Equipment profile (`UserProfile` in `lib/types.ts`; location omitted). -/
structure UserProfile where
  machine : Machine
  grinder : Grinder
  basket : Basket
deriving DecidableEq, Repr

/-- Per-session bean attributes (`BeanInfo` in `lib/types.ts`). -/
structure BeanInfo where
  beanType : BeanType
  roastLevel : RoastLevel
  processMethod : ProcessMethod
  roastDateDaysAgo : ℚ
  originId : Option String
  varietalId : Option String
  blendProfile : Option BlendProfile
  dominantOriginId : Option String
deriving DecidableEq, Repr

/-- Brew targets (`BrewTargets` in `lib/types.ts`). -/
structure BrewTargets where
  ratio : ℚ
  brewTimeMinSec : ℚ
  brewTimeMaxSec : ℚ
  tastePreference : TastePreference
deriving DecidableEq, Repr

/-- Resolved weather (`WeatherData` in `lib/types.ts`). -/
structure WeatherData where
  temperatureC : ℚ
  humidity : ℚ
deriving DecidableEq, Repr

/-- Full input to the engine (`AlgorithmInput` in `lib/types.ts`). -/
structure AlgorithmInput where
  profile : UserProfile
  bean : BeanInfo
  targets : BrewTargets
  weather : WeatherData
deriving DecidableEq, Repr

/-- Static reference tables injected into the engine: each lookup returns the
`extractionModifier` of the entry whose `id` matches, mirroring
`Array.find` over `varietals.json`, `origins.json` and `blends.json`. -/
structure RefTables where
  varietalModifier : String → Option ℚ
  originModifier : String → Option ℚ
  blendModifier : BlendProfile → Option ℚ

/-- A JavaScript number as seen by `Number.isFinite`: either a finite value
(modelled as a rational) or a non-finite one (NaN, ±Infinity). -/
inductive JsNum where
  | num (q : ℚ)
  | nonFinite
deriving DecidableEq, Repr

/-- JavaScript `Math.round`: half-up rounding, `⌊x + 1/2⌋`. -/
def jsRound (q : ℚ) : ℤ := ⌊q + 1 / 2⌋

/-- Fallback micron-per-step value (`FALLBACK_MICRON_PER_STEP` in
`lib/algorithm.ts`). -/
def FALLBACK_MICRON_PER_STEP : ℚ := 10

/-- Fallback branch of `micronsToSteps`: estimate the step size from the
grinder's espresso range; if the range is malformed (`rangeSteps ≤ 0`)
divide by the fallback constant instead. -/
def micronsToStepsFallback (m : ℚ) (grinder : Grinder) : ℚ :=
  let rangeSteps := grinder.espressoRangeMax - grinder.espressoRangeMin
  if rangeSteps ≤ 0 then
    m / FALLBACK_MICRON_PER_STEP
  else
    let estimatedTotalMicrons : ℚ := if 30 < rangeSteps then 400 else 300
    let estimatedMicronPerStep := estimatedTotalMicrons / rangeSteps
    m / estimatedMicronPerStep

/-- Embeds `micronsToSteps` from `lib/algorithm.ts`.  A non-finite micron
value contributes zero steps; a declared positive `micronPerStep` is used
directly (the JS guard `micronPerStep && micronPerStep > 0` is truthiness
plus positivity); otherwise the fallback estimate applies. -/
def micronsToSteps (microns : JsNum) (grinder : Grinder) : ℚ :=
  match microns with
  | JsNum.nonFinite => 0
  | JsNum.num m =>
    match grinder.micronPerStep with
    | some mps => if 0 < mps then m / mps else micronsToStepsFallback m grinder
    | none => micronsToStepsFallback m grinder

/-- Steps contributed per micron: `micronsToSteps` is linear with this
(always positive) coefficient. -/
def stepFactor (grinder : Grinder) : ℚ :=
  match grinder.micronPerStep with
  | some mps =>
    if 0 < mps then 1 / mps
    else if grinder.espressoRangeMax - grinder.espressoRangeMin ≤ 0 then
      1 / FALLBACK_MICRON_PER_STEP
    else
      (grinder.espressoRangeMax - grinder.espressoRangeMin) /
        (if 30 < grinder.espressoRangeMax - grinder.espressoRangeMin then 400 else 300)
  | none =>
    if grinder.espressoRangeMax - grinder.espressoRangeMin ≤ 0 then
      1 / FALLBACK_MICRON_PER_STEP
    else
      (grinder.espressoRangeMax - grinder.espressoRangeMin) /
        (if 30 < grinder.espressoRangeMax - grinder.espressoRangeMin then 400 else 300)

theorem micronsToSteps_num (m : ℚ) (g : Grinder) :
    micronsToSteps (JsNum.num m) g = m * stepFactor g := by
  unfold micronsToSteps stepFactor micronsToStepsFallback FALLBACK_MICRON_PER_STEP
  rcases g.micronPerStep with _ | mps
  · simp only []
    split
    · rw [div_eq_mul_inv, one_div]
    · rw [div_div_eq_mul_div, mul_div_assoc]
  · simp only []
    split
    · rw [div_eq_mul_inv, one_div]
    · split
      · rw [div_eq_mul_inv, one_div]
      · rw [div_div_eq_mul_div, mul_div_assoc]

theorem stepFactor_pos (g : Grinder) : 0 < stepFactor g := by
  unfold stepFactor FALLBACK_MICRON_PER_STEP
  rcases g.micronPerStep with _ | mps
  · simp only []
    split
    · norm_num
    · apply div_pos (by linarith [not_le.mp (by assumption : ¬ _)])
      split <;> norm_num
  · simp only []
    split
    · exact one_div_pos.mpr (by assumption)
    · split
      · norm_num
      · apply div_pos (by linarith [not_le.mp (by assumption : ¬ _)])
        split <;> norm_num

/-- The running dose of `calculateDose` before rounding: basket-capacity
midpoint, roast-density adjustment, and the guarded small-basket bump. -/
def doseBeforeRound (input : AlgorithmInput) : ℚ :=
  let basket := input.profile.basket
  let roastLevel := input.bean.roastLevel
  let dose := (basket.capacityMinG + basket.capacityMaxG) / 2
  let dose :=
    if roastLevel = RoastLevel.dark then dose - 1
    else if roastLevel = RoastLevel.mediumDark then dose - 1 / 2
    else if roastLevel = RoastLevel.light then dose + 1 / 2
    else dose
  if basket.sizeMm ≤ 51 ∧ basket.basketType ≠ BasketType.pressurized then
    if dose + 1 / 2 ≤ basket.capacityMaxG then dose + 1 / 2 else dose
  else dose

/-- Embeds `calculateDose` from `lib/algorithm.ts`: the running dose is
rounded to the nearest 0.5 g and clamped into the capacity range. -/
def calculateDose (input : AlgorithmInput) : ℚ :=
  max input.profile.basket.capacityMinG
    (min input.profile.basket.capacityMaxG
      ((jsRound (doseBeforeRound input * 2) : ℚ) / 2))

/-- Roast-level micron table from `calculateGrindSetting` (the `?? 0` fallback
of the source is unreachable: the roast enum is closed). -/
def roastMicrons : RoastLevel → ℚ
  | RoastLevel.light => -40
  | RoastLevel.mediumLight => -20
  | RoastLevel.medium => 0
  | RoastLevel.mediumDark => 40
  | RoastLevel.dark => 80

/-- Process-method micron table from `calculateGrindSetting`. -/
def processMicrons : ProcessMethod → ℚ
  | ProcessMethod.washed => 0
  | ProcessMethod.natural => 20
  | ProcessMethod.honey => 10
  | ProcessMethod.anaerobic => -10
  | ProcessMethod.other => 0

/-- Freshness micron shift before the natural-process correction: the
degassing curve over days since roast. -/
def freshnessMicronsRaw (roastDateDaysAgo : ℚ) : ℚ :=
  if roastDateDaysAgo ≤ 4 then 60
  else if roastDateDaysAgo ≤ 6 then 30
  else if roastDateDaysAgo ≤ 14 then 0
  else if roastDateDaysAgo ≤ 35 then -20
  else -40

/-- Freshness micron shift including the natural-process correction
(`Math.round(freshnessMicrons * 0.8)` when natural and ≤ 6 days; the
`Number.isFinite` guards of the source are identically true on rationals). -/
def freshnessMicrons (processMethod : ProcessMethod) (roastDateDaysAgo : ℚ) : ℚ :=
  let fm := freshnessMicronsRaw roastDateDaysAgo
  if processMethod = ProcessMethod.natural ∧ roastDateDaysAgo ≤ 6 then
    (jsRound (fm * (4 / 5)) : ℚ)
  else fm

/-- Varietal/origin contribution for single-origin beans, or blend-profile /
dominant-origin contribution for blends, mirroring the `Array.find` lookups
(a JS falsy empty-string id skips the lookup). -/
def lookupShift (tables : RefTables) (bean : BeanInfo) (grinder : Grinder) (setting : ℚ) : ℚ :=
  if bean.beanType = BeanType.singleOrigin then
    let setting :=
      match bean.varietalId with
      | some vid =>
        if vid ≠ "" then
          match tables.varietalModifier vid with
          | some em =>
            if em ≠ 0 then setting + micronsToSteps (JsNum.num (em * 10)) grinder else setting
          | none => setting
        else setting
      | none => setting
    match bean.originId with
    | some oid =>
      if oid ≠ "" then
        match tables.originModifier oid with
        | some em =>
          if em ≠ 0 then setting + micronsToSteps (JsNum.num (em * 10)) grinder else setting
        | none => setting
      else setting
    | none => setting
  else
    let setting :=
      match bean.blendProfile with
      | some bp =>
        match tables.blendModifier bp with
        | some em =>
          if em ≠ 0 then setting + micronsToSteps (JsNum.num (em * 10)) grinder else setting
        | none => setting
      | none => setting
    match bean.dominantOriginId with
    | some oid =>
      if oid ≠ "" then
        match tables.originModifier oid with
        | some em =>
          if em ≠ 0 then setting + micronsToSteps (JsNum.num (em * 10 * (1 / 2))) grinder
          else setting
        | none => setting
      else setting
    | none => setting

/-- The running grind setting of `calculateGrindSetting` after every modifier
up to and including the first compound term (fresh + dark + warm), i.e.
everything before the humidity-fine compound nudge and the final clamp. -/
def grindBeforeCompound2 (tables : RefTables) (input : AlgorithmInput) : ℚ :=
  let grinder := input.profile.grinder
  let machine := input.profile.machine
  let basket := input.profile.basket
  let rangeSize := grinder.espressoRangeMax - grinder.espressoRangeMin
  let setting := grinder.espressoRangeMin + rangeSize * (1 / 4)
  let roastShift := roastMicrons input.bean.roastLevel
  let setting :=
    if roastShift ≠ 0 then setting + micronsToSteps (JsNum.num roastShift) grinder else setting
  let fMic := freshnessMicrons input.bean.processMethod input.bean.roastDateDaysAgo
  let setting :=
    if fMic ≠ 0 then setting + micronsToSteps (JsNum.num fMic) grinder else setting
  let pShift := processMicrons input.bean.processMethod
  let setting :=
    if pShift ≠ 0 then setting + micronsToSteps (JsNum.num pShift) grinder else setting
  let setting := lookupShift tables input.bean grinder setting
  let setting :=
    if 15 ≤ machine.pumpPressureBars then
      setting + micronsToSteps (JsNum.num (-40)) grinder
    else setting
  let setting :=
    if machine.machineType = MachineType.leverManual ∨
        machine.machineType = MachineType.leverSpring then
      setting + micronsToSteps (JsNum.num 30) grinder
    else setting
  let setting :=
    if 0 < machine.waterDebitMlPerMin ∧ machine.waterDebitMlPerMin < 220 then
      setting + micronsToSteps (JsNum.num 20) grinder
    else setting
  let setting :=
    if basket.basketType = BasketType.pressurized then
      setting + micronsToSteps (JsNum.num 160) grinder
    else if basket.basketType = BasketType.precision then
      setting + micronsToSteps (JsNum.num (-10)) grinder
    else setting
  let setting :=
    if basket.sizeMm ≤ 51 ∧ basket.basketType ≠ BasketType.pressurized then
      setting + micronsToSteps (JsNum.num (-20)) grinder
    else setting
  let setting :=
    if 70 < input.weather.humidity then
      setting + micronsToSteps (JsNum.num 15) grinder
    else if input.weather.humidity < 30 then
      setting + micronsToSteps (JsNum.num (-15)) grinder
    else setting
  let setting :=
    if 30 < input.weather.temperatureC then
      setting + micronsToSteps (JsNum.num 10) grinder
    else if input.weather.temperatureC < 15 then
      setting + micronsToSteps (JsNum.num (-10)) grinder
    else setting
  let setting :=
    if input.targets.tastePreference = TastePreference.body then
      setting + micronsToSteps (JsNum.num (-20)) grinder
    else if input.targets.tastePreference = TastePreference.bright ∨
        input.targets.tastePreference = TastePreference.sweetness then
      setting + micronsToSteps (JsNum.num 20) grinder
    else setting
  let setting :=
    if 5 / 2 < input.targets.ratio then
      setting + micronsToSteps (JsNum.num 20) grinder
    else if input.targets.ratio < 9 / 5 then
      setting + micronsToSteps (JsNum.num (-20)) grinder
    else setting
  let setting :=
    if 1200 < grinder.rpm then
      setting + micronsToSteps (JsNum.num 10) grinder
    else setting
  let setting :=
    if input.bean.roastDateDaysAgo < 7 ∧
        (input.bean.roastLevel = RoastLevel.dark ∨
          input.bean.roastLevel = RoastLevel.mediumDark) ∧
        28 < input.weather.temperatureC then
      setting + micronsToSteps (JsNum.num 20) grinder
    else setting
  setting

/-- The running grind setting after the humidity-fine compound nudge
(humidity above 65 % and a position below 15 % of the espresso range). -/
def grindAfterCompound2 (tables : RefTables) (input : AlgorithmInput) : ℚ :=
  let grinder := input.profile.grinder
  let rangeSize := grinder.espressoRangeMax - grinder.espressoRangeMin
  let setting := grindBeforeCompound2 tables input
  if 65 < input.weather.humidity ∧
      setting < grinder.espressoRangeMin + rangeSize * (3 / 20) then
    setting + micronsToSteps (JsNum.num 10) grinder
  else setting

/-- The computed grind setting clamped into the grinder's espresso range. -/
def grindClamped (tables : RefTables) (input : AlgorithmInput) : ℚ :=
  max input.profile.grinder.espressoRangeMin
    (min input.profile.grinder.espressoRangeMax (grindAfterCompound2 tables input))

/-- Output shape of the grind recommendation: a single setting for stepped
grinders, or a `{min, max}` range for stepless grinders. -/
inductive GrindSetting where
  | stepped (value : ℚ)
  | stepless (min max : ℚ)
deriving DecidableEq, Repr

/-- Embeds the formatting tail of `calculateGrindSetting`: stepped grinders
round to the nearest integer and floor at the range minimum; stepless
grinders report a ±0.5 range, each bound clamped to the grinder's range and
rounded to one decimal. -/
def calculateGrindSetting (tables : RefTables) (input : AlgorithmInput) : GrindSetting :=
  let grinder := input.profile.grinder
  let setting := grindClamped tables input
  if grinder.steppedOrStepless = SteppedOrStepless.stepped then
    GrindSetting.stepped (max grinder.espressoRangeMin ((jsRound setting : ℤ) : ℚ))
  else
    GrindSetting.stepless
      (max grinder.espressoRangeMin ((jsRound ((setting - 1 / 2) * 10) : ℚ) / 10))
      (min grinder.espressoRangeMax ((jsRound ((setting + 1 / 2) * 10) : ℚ) / 10))

/-- Expected brew-time window `{min, max}` in seconds. -/
structure BrewTime where
  min : ℚ
  max : ℚ
deriving DecidableEq, Repr

/-- Embeds `estimateBrewTime` from `lib/algorithm.ts`. -/
def estimateBrewTime (input : AlgorithmInput) (grindSetting : GrindSetting) : BrewTime :=
  let grinder := input.profile.grinder
  let actualSetting :=
    match grindSetting with
    | GrindSetting.stepped v => v
    | GrindSetting.stepless mn mx => (mn + mx) / 2
  let rangeSize := grinder.espressoRangeMax - grinder.espressoRangeMin
  let positionInRange := (actualSetting - grinder.espressoRangeMin) / rangeSize
  let timeAdjustmentSec : ℚ :=
    if positionInRange < 2 / 5 then 3 + (2 / 5 - positionInRange) * 10
    else if 3 / 5 < positionInRange then -3 - (positionInRange - 3 / 5) * 10
    else 0
  let timeAdjustmentSec :=
    if input.targets.ratio < 9 / 5 then timeAdjustmentSec - 3
    else if 5 / 2 < input.targets.ratio then timeAdjustmentSec + 5
    else timeAdjustmentSec
  let estimatedMin := (jsRound (max 15 (input.targets.brewTimeMinSec + timeAdjustmentSec)) : ℚ)
  let estimatedMax := (jsRound (max 20 (input.targets.brewTimeMaxSec + timeAdjustmentSec)) : ℚ)
  { min := min estimatedMin estimatedMax, max := max estimatedMin estimatedMax }

/-- Base brew temperature by roast level (`tempMap` in `calculateBrewTemp`;
the `?? 93` fallback of the source is unreachable on the closed enum). -/
def tempMap : RoastLevel → ℚ
  | RoastLevel.light => 95
  | RoastLevel.mediumLight => 94
  | RoastLevel.medium => 93
  | RoastLevel.mediumDark => 91
  | RoastLevel.dark => 89

/-- Embeds `calculateBrewTemp` from `lib/algorithm.ts`. -/
def calculateBrewTemp (input : AlgorithmInput) : ℚ :=
  let temp := tempMap input.bean.roastLevel
  if input.bean.processMethod = ProcessMethod.anaerobic then temp - 1 else temp

/-- Embeds `calculateConfidence` from `lib/algorithm.ts` (the JS truthiness
guard on `micronPerStep` excludes an absent or zero value). -/
def calculateConfidence (input : AlgorithmInput) : Confidence :=
  let machine := input.profile.machine
  let grinder := input.profile.grinder
  let score : ℚ := 70
  let score := if machine.hasPID then score + 8 else score
  let score := if machine.hasPreInfusion then score + 5 else score
  let score := if 50 ≤ grinder.burrSizeMm then score + 5 else score
  let score :=
    match grinder.micronPerStep with
    | some mps => if mps ≠ 0 ∧ mps ≤ 15 then score + 5 else score
    | none => score
  let score :=
    if input.bean.beanType = BeanType.blend ∧
        input.bean.blendProfile = some BlendProfile.unknown then
      score - 15
    else score
  let score := if input.bean.roastDateDaysAgo < 5 then score - 10 else score
  let score := if 35 < input.bean.roastDateDaysAgo then score - 8 else score
  let score :=
    if 15 ≤ machine.pumpPressureBars ∧ ¬machine.hasPID then score - 8 else score
  let score :=
    if input.profile.basket.basketType = BasketType.pressurized then score - 5 else score
  if 75 ≤ score then Confidence.high
  else if 55 ≤ score then Confidence.medium
  else Confidence.low

/-- The five descriptive validation failures of `calculateRecipe`, in source
order (each corresponds to one thrown `Error` message). -/
inductive ValidationError where
  | basketCapacity
  | grinderRange
  | roastDate
  | ratioNotPositive
  | brewTimeRange
deriving DecidableEq, Repr

/-- Engine output (`AlgorithmOutput` in `lib/types.ts`; the reasoning strings
and tips carry no numeric content and are omitted). -/
structure AlgorithmOutput where
  recommendedDoseG : ℚ
  recommendedGrindSetting : GrindSetting
  expectedYieldG : ℚ
  expectedBrewTimeSec : BrewTime
  recommendedTempC : ℚ
  confidence : Confidence
deriving DecidableEq, Repr

/-- The post-validation body of `calculateRecipe`: dose, grind, yield
(`round(dose × ratio, 1 decimal)`), brew time, temperature and confidence. -/
def computeOutput (tables : RefTables) (input : AlgorithmInput) : AlgorithmOutput :=
  let recommendedDoseG := calculateDose input
  let recommendedGrindSetting := calculateGrindSetting tables input
  { recommendedDoseG := recommendedDoseG
    recommendedGrindSetting := recommendedGrindSetting
    expectedYieldG := (jsRound (recommendedDoseG * input.targets.ratio * 10) : ℚ) / 10
    expectedBrewTimeSec := estimateBrewTime input recommendedGrindSetting
    recommendedTempC := calculateBrewTemp input
    confidence := calculateConfidence input }

/-- Embeds `calculateRecipe` from `lib/algorithm.ts`: the five validation
checks in source order (a thrown `Error` becomes `Except.error`), then the
computation.  `Number.isFinite(ratio)` is identically true on rationals, so
the ratio check reduces to non-positivity. -/
def calculateRecipe (tables : RefTables) (input : AlgorithmInput) :
    Except ValidationError AlgorithmOutput :=
  if input.profile.basket.capacityMinG > input.profile.basket.capacityMaxG then
    Except.error ValidationError.basketCapacity
  else if input.profile.grinder.espressoRangeMin ≥ input.profile.grinder.espressoRangeMax then
    Except.error ValidationError.grinderRange
  else if input.bean.roastDateDaysAgo < 0 then
    Except.error ValidationError.roastDate
  else if input.targets.ratio ≤ 0 then
    Except.error ValidationError.ratioNotPositive
  else if input.targets.brewTimeMinSec ≥ input.targets.brewTimeMaxSec then
    Except.error ValidationError.brewTimeRange
  else
    Except.ok (computeOutput tables input)

/-- All five validator checks pass. -/
def validInput (input : AlgorithmInput) : Prop :=
  ¬input.profile.basket.capacityMinG > input.profile.basket.capacityMaxG ∧
  ¬input.profile.grinder.espressoRangeMin ≥ input.profile.grinder.espressoRangeMax ∧
  ¬input.bean.roastDateDaysAgo < 0 ∧
  ¬input.targets.ratio ≤ 0 ∧
  ¬input.targets.brewTimeMinSec ≥ input.targets.brewTimeMaxSec

instance (input : AlgorithmInput) : Decidable (validInput input) := by
  unfold validInput
  infer_instance

theorem calculateRecipe_ok (tables : RefTables) (input : AlgorithmInput)
    (h : validInput input) :
    calculateRecipe tables input = Except.ok (computeOutput tables input) := by
  obtain ⟨h1, h2, h3, h4, h5⟩ := h
  unfold calculateRecipe
  rw [if_neg h1, if_neg h2, if_neg h3, if_neg h4, if_neg h5]

theorem calculateRecipe_error_of_invalid (tables : RefTables) (input : AlgorithmInput)
    (h : ¬validInput input) :
    ∃ e, calculateRecipe tables input = Except.error e := by
  unfold calculateRecipe
  by_cases h1 : input.profile.basket.capacityMinG > input.profile.basket.capacityMaxG
  · rw [if_pos h1]; exact ⟨_, rfl⟩
  rw [if_neg h1]
  by_cases h2 : input.profile.grinder.espressoRangeMin ≥ input.profile.grinder.espressoRangeMax
  · rw [if_pos h2]; exact ⟨_, rfl⟩
  rw [if_neg h2]
  by_cases h3 : input.bean.roastDateDaysAgo < 0
  · rw [if_pos h3]; exact ⟨_, rfl⟩
  rw [if_neg h3]
  by_cases h4 : input.targets.ratio ≤ 0
  · rw [if_pos h4]; exact ⟨_, rfl⟩
  rw [if_neg h4]
  by_cases h5 : input.targets.brewTimeMinSec ≥ input.targets.brewTimeMaxSec
  · rw [if_pos h5]; exact ⟨_, rfl⟩
  exact absurd ⟨h1, h2, h3, h4, h5⟩ h

theorem ok_dest (tables : RefTables) (input : AlgorithmInput) (out : AlgorithmOutput)
    (h : calculateRecipe tables input = Except.ok out) :
    validInput input ∧ out = computeOutput tables input := by
  by_cases hv : validInput input
  · rw [calculateRecipe_ok tables input hv] at h
    exact ⟨hv, (Except.ok.inj h).symm⟩
  · obtain ⟨e, he⟩ := calculateRecipe_error_of_invalid tables input hv
    rw [he] at h
    exact absurd h (by simp)

-- ============================================================
-- Concrete fixtures used by claim-specific witnesses
-- ============================================================

/-- Reference tables with no matching entries: every lookup misses, as for a
bean with no origin, varietal or blend identifiers. -/
def emptyTables : RefTables :=
  { varietalModifier := fun _ => none
    originModifier := fun _ => none
    blendModifier := fun _ => none }

/-- The documented calibration grinder (Baratza Encore ESP): range 1–20,
20 microns per step, stepped; `rpm` left as a parameter. -/
def encoreESP (rpm : ℚ) : Grinder :=
  { burrType := BurrType.conical
    burrSizeMm := 40
    rpm := rpm
    espressoRangeMin := 1
    espressoRangeMax := 20
    totalSettings := 40
    steppedOrStepless := SteppedOrStepless.stepped
    micronPerStep := some 20 }

/-- The documented calibration machine (DeLonghi Stilosa): 15 bar, 184 ml/min
water debit, no PID; `machineType` left as a parameter. -/
def stilosa (mt : MachineType) : Machine :=
  { machineType := mt
    pumpPressureBars := 15
    boilerType := BoilerType.single
    groupHeadSizeMm := 51
    hasPreInfusion := false
    hasPID := false
    waterDebitMlPerMin := 184
    warmupMinutes := none }

/-- The documented calibration basket: 51 mm, non-pressurized, bottomless,
16–18 g capacity. -/
def smallBasket : Basket :=
  { basketType := BasketType.nonPressurized
    sizeMm := 51
    capacityMinG := 16
    capacityMaxG := 18
    isBottomless := true }

/-- The documented calibration input: medium washed beans 14 days off roast,
no origin/varietal modifiers, ratio 2.0, balanced taste, 20 °C / 50 %
weather; grinder RPM, machine type and the brew-time window are parameters. -/
def calibrationInput (rpm : ℚ) (mt : MachineType) (tmin tmax : ℚ) : AlgorithmInput :=
  { profile := { machine := stilosa mt, grinder := encoreESP rpm, basket := smallBasket }
    bean :=
      { beanType := BeanType.singleOrigin
        roastLevel := RoastLevel.medium
        processMethod := ProcessMethod.washed
        roastDateDaysAgo := 14
        originId := none
        varietalId := none
        blendProfile := none
        dominantOriginId := none }
    targets :=
      { ratio := 2
        brewTimeMinSec := tmin
        brewTimeMaxSec := tmax
        tastePreference := TastePreference.balanced }
    weather := { temperatureC := 20, humidity := 50 } }

-- ============================================================
-- Claim C4: the validator rejects exactly the five conditions
-- ============================================================

/-- C4: `calculateRecipe` fails with a validation error precisely when one of
the five validator conditions holds (basket capacity inverted, grinder range
inverted or empty, negative roast date, non-positive ratio — the non-finite
case is unrepresentable over rationals — or brew-time window inverted or
empty), and succeeds for every input in which none of the five holds. -/
theorem validator_rejects_iff (tables : RefTables) (input : AlgorithmInput) :
    (∃ e, calculateRecipe tables input = Except.error e) ↔
      (input.profile.basket.capacityMinG > input.profile.basket.capacityMaxG ∨
        input.profile.grinder.espressoRangeMin ≥ input.profile.grinder.espressoRangeMax ∨
        input.bean.roastDateDaysAgo < 0 ∨
        input.targets.ratio ≤ 0 ∨
        input.targets.brewTimeMinSec ≥ input.targets.brewTimeMaxSec) := by
  constructor
  · rintro ⟨e, he⟩
    by_contra hno
    push_neg at hno
    obtain ⟨n1, n2, n3, n4, n5⟩ := hno
    rw [calculateRecipe_ok tables input
      ⟨not_lt.mpr n1, not_le.mpr n2, not_lt.mpr n3, not_le.mpr n4, not_le.mpr n5⟩] at he
    exact absurd he (by simp)
  · intro hd
    apply calculateRecipe_error_of_invalid
    rintro ⟨n1, n2, n3, n4, n5⟩
    rcases hd with h | h | h | h | h <;> contradiction

-- ============================================================
-- Claim C9: validation checks run in a fixed order
-- ============================================================

/-- Spec-side description of the validator order: the first failing check in
the order basket capacity, grinder range, roast date, ratio, brew-time
window determines the error; `none` when all five pass. -/
def specFirstValidationError (input : AlgorithmInput) : Option ValidationError :=
  if input.profile.basket.capacityMinG > input.profile.basket.capacityMaxG then
    some ValidationError.basketCapacity
  else if input.profile.grinder.espressoRangeMin ≥ input.profile.grinder.espressoRangeMax then
    some ValidationError.grinderRange
  else if input.bean.roastDateDaysAgo < 0 then
    some ValidationError.roastDate
  else if input.targets.ratio ≤ 0 then
    some ValidationError.ratioNotPositive
  else if input.targets.brewTimeMinSec ≥ input.targets.brewTimeMaxSec then
    some ValidationError.brewTimeRange
  else none

/-- C9: when several inputs are simultaneously invalid, the error raised by
`calculateRecipe` is exactly the one for the earliest failing check in the
fixed order basket capacity → grinder range → roast date → ratio →
brew-time window. -/
theorem validation_order (tables : RefTables) (input : AlgorithmInput) (e : ValidationError) :
    calculateRecipe tables input = Except.error e ↔
      specFirstValidationError input = some e := by
  unfold calculateRecipe specFirstValidationError
  split_ifs <;> simp

-- ============================================================
-- Claim C8: brew temperature table and bounds
-- ============================================================

/-- C8: for every input that passes validation, the recommended temperature
is the roast-level table value (95, 94, 93, 91, 89 from light to dark) minus
1 exactly when the process is anaerobic, hence always within [88, 95].  The
"unrecognized roast level" fallback of the source is unreachable on the
closed roast enum. -/
theorem brew_temp_bounds (tables : RefTables) (input : AlgorithmInput)
    (out : AlgorithmOutput) (h : calculateRecipe tables input = Except.ok out) :
    88 ≤ out.recommendedTempC ∧ out.recommendedTempC ≤ 95 ∧
      out.recommendedTempC = tempMap input.bean.roastLevel -
        (if input.bean.processMethod = ProcessMethod.anaerobic then 1 else 0) := by
  obtain ⟨-, rfl⟩ := ok_dest tables input out h
  simp only [computeOutput, calculateBrewTemp]
  rcases input.bean.roastLevel <;> rcases input.bean.processMethod <;>
    simp [tempMap] <;> norm_num

/-- Witness for C8 at the concrete calibration input. -/
theorem brew_temp_bounds_witness :
    88 ≤ (computeOutput emptyTables
        (calibrationInput 550 MachineType.other 25 30)).recommendedTempC ∧
      (computeOutput emptyTables
        (calibrationInput 550 MachineType.other 25 30)).recommendedTempC ≤ 95 ∧
      (computeOutput emptyTables
          (calibrationInput 550 MachineType.other 25 30)).recommendedTempC =
        tempMap (calibrationInput 550 MachineType.other 25 30).bean.roastLevel -
          (if (calibrationInput 550 MachineType.other 25 30).bean.processMethod =
              ProcessMethod.anaerobic then 1 else 0) :=
  brew_temp_bounds emptyTables (calibrationInput 550 MachineType.other 25 30) _
    (calculateRecipe_ok _ _ (by
      refine ⟨?_, ?_, ?_, ?_, ?_⟩ <;>
        norm_num [calibrationInput, encoreESP, stilosa, smallBasket]))

-- ============================================================
-- Rounding and clamping helper lemmas
-- ============================================================

theorem jsRound_le (q : ℚ) : (jsRound q : ℚ) ≤ q + 1 / 2 := by
  rw [jsRound]
  exact_mod_cast Int.floor_le (q + 1 / 2)

theorem lt_jsRound (q : ℚ) : q - 1 / 2 < (jsRound q : ℚ) := by
  rw [jsRound]
  have := Int.lt_floor_add_one (q + 1 / 2)
  push_cast at this ⊢
  linarith

theorem jsRound_mono {x y : ℚ} (h : x ≤ y) : jsRound x ≤ jsRound y :=
  Int.floor_le_floor (by linarith)

theorem jsRound_le_int {x : ℚ} {n : ℤ} (h : x ≤ (n : ℚ)) : jsRound x ≤ n := by
  calc jsRound x ≤ jsRound (n : ℚ) := jsRound_mono h
    _ = n := by
      rw [jsRound, add_comm, Int.floor_add_int]
      norm_num

theorem grindClamped_mem (tables : RefTables) (input : AlgorithmInput)
    (h : input.profile.grinder.espressoRangeMin ≤ input.profile.grinder.espressoRangeMax) :
    input.profile.grinder.espressoRangeMin ≤ grindClamped tables input ∧
      grindClamped tables input ≤ input.profile.grinder.espressoRangeMax := by
  unfold grindClamped
  constructor
  · exact le_max_left _ _
  · exact max_le h (min_le_left _ _)

-- ============================================================
-- Claim C10: stepless output range is well-ordered
-- ============================================================

/-- C10: for a stepless grinder and an input that passes validation, the
returned range brackets the clamped computed setting:
`min ≤ clamped setting ≤ max`, and in particular `min ≤ max`. -/
theorem stepless_well_ordered (tables : RefTables) (input : AlgorithmInput)
    (out : AlgorithmOutput) (mn mx : ℚ)
    (h : calculateRecipe tables input = Except.ok out)
    (hs : out.recommendedGrindSetting = GrindSetting.stepless mn mx) :
    mn ≤ grindClamped tables input ∧ grindClamped tables input ≤ mx ∧ mn ≤ mx := by
  obtain ⟨⟨-, h2, -, -, -⟩, rfl⟩ := ok_dest tables input out h
  have hrange : input.profile.grinder.espressoRangeMin ≤
      input.profile.grinder.espressoRangeMax := le_of_lt (not_le.mp h2)
  simp only [computeOutput, calculateGrindSetting] at hs
  split at hs
  · exact absurd hs (by simp)
  · obtain ⟨rfl, rfl⟩ := GrindSetting.stepless.inj hs
    obtain ⟨hc1, hc2⟩ := grindClamped_mem tables input hrange
    set c := grindClamped tables input with hc
    have hlo : (jsRound ((c - 1 / 2) * 10) : ℚ) / 10 ≤ c := by
      have := jsRound_le ((c - 1 / 2) * 10)
      linarith
    have hhi : c ≤ (jsRound ((c + 1 / 2) * 10) : ℚ) / 10 := by
      have := lt_jsRound ((c + 1 / 2) * 10)
      linarith
    refine ⟨max_le hc1 hlo, le_min hc2 hhi, le_trans (max_le hc1 hlo) (le_min hc2 hhi)⟩

/-- Witness for C10 at a stepless variant of the calibration setup. -/
def steplessCalibInput : AlgorithmInput :=
  { calibrationInput 550 MachineType.other 25 30 with
    profile :=
      { (calibrationInput 550 MachineType.other 25 30).profile with
        grinder :=
          { encoreESP 550 with steppedOrStepless := SteppedOrStepless.stepless } } }

theorem stepless_well_ordered_witness :
    (33 / 10 : ℚ) ≤ grindClamped emptyTables steplessCalibInput ∧
      grindClamped emptyTables steplessCalibInput ≤ 43 / 10 ∧ (33 / 10 : ℚ) ≤ 43 / 10 :=
  stepless_well_ordered emptyTables steplessCalibInput _ (33 / 10) (43 / 10)
    (calculateRecipe_ok _ _ (by
      refine ⟨?_, ?_, ?_, ?_, ?_⟩ <;>
        norm_num [steplessCalibInput, calibrationInput, encoreESP, stilosa, smallBasket]))
    (by
      simp +decide only [computeOutput, calculateGrindSetting, grindClamped,
        grindAfterCompound2, grindBeforeCompound2, steplessCalibInput, calibrationInput,
        encoreESP, stilosa, smallBasket, emptyTables, roastMicrons, processMicrons,
        freshnessMicrons, freshnessMicronsRaw, lookupShift, micronsToSteps,
        micronsToStepsFallback, jsRound]
      norm_num [max_def, min_def])

-- ============================================================
-- Claim C2: grind value bounds (corrected)
-- ============================================================

/-- Extracts the grind recommendation from an engine result. -/
def grindOf (r : Except ValidationError AlgorithmOutput) : Option GrindSetting :=
  match r with
  | Except.ok o => some o.recommendedGrindSetting
  | Except.error _ => none

/-- A valid stepped grinder whose espresso range ends at the fractional
setting 0.6: rounding the clamped value exceeds the range maximum. -/
def fracMaxGrinder : Grinder :=
  { burrType := BurrType.flat
    burrSizeMm := 50
    rpm := 500
    espressoRangeMin := 0
    espressoRangeMax := 3 / 5
    totalSettings := 10
    steppedOrStepless := SteppedOrStepless.stepped
    micronPerStep := some 20 }

/-- A 9-bar machine with fast water debit (no machine adjustments fire). -/
def neutralMachine : Machine :=
  { machineType := MachineType.other
    pumpPressureBars := 9
    boilerType := BoilerType.single
    groupHeadSizeMm := 58
    hasPreInfusion := false
    hasPID := true
    waterDebitMlPerMin := 250
    warmupMinutes := none }

/-- A 58 mm non-pressurized basket (no basket adjustments fire). -/
def basket58 : Basket :=
  { basketType := BasketType.nonPressurized
    sizeMm := 58
    capacityMinG := 16
    capacityMaxG := 18
    isBottomless := false }

/-- Valid input whose dark roast pushes the setting to the top of the
fractional-maximum grinder range. -/
def c2Input : AlgorithmInput :=
  { profile := { machine := neutralMachine, grinder := fracMaxGrinder, basket := basket58 }
    bean :=
      { beanType := BeanType.singleOrigin
        roastLevel := RoastLevel.dark
        processMethod := ProcessMethod.washed
        roastDateDaysAgo := 10
        originId := none
        varietalId := none
        blendProfile := none
        dominantOriginId := none }
    targets :=
      { ratio := 2
        brewTimeMinSec := 25
        brewTimeMaxSec := 30
        tastePreference := TastePreference.balanced }
    weather := { temperatureC := 20, humidity := 50 } }

/-- Counterexample to C2 as stated: on a valid stepped grinder with espresso
range [0, 0.6] the engine returns setting 1, which exceeds
`espressoRangeMax`. -/
theorem grind_bounds_cex :
    grindOf (calculateRecipe emptyTables c2Input) = some (GrindSetting.stepped 1) ∧
      c2Input.profile.grinder.espressoRangeMax < 1 := by
  constructor
  · rw [calculateRecipe_ok emptyTables c2Input (by
      refine ⟨?_, ?_, ?_, ?_, ?_⟩ <;>
        norm_num [c2Input, fracMaxGrinder, neutralMachine, basket58])]
    simp +decide only [grindOf, computeOutput, calculateGrindSetting, grindClamped,
      grindAfterCompound2, grindBeforeCompound2, c2Input, fracMaxGrinder, neutralMachine,
      basket58, emptyTables, roastMicrons, processMicrons, freshnessMicrons,
      freshnessMicronsRaw, lookupShift, micronsToSteps, micronsToStepsFallback, jsRound]
    norm_num [max_def, min_def]
  · norm_num [c2Input, fracMaxGrinder]

/-- C2 amended: for every input that passes validation, both ends of a
stepless range lie within `[espressoRangeMin, espressoRangeMax]`; a stepped
value is at least `espressoRangeMin` and exceeds `espressoRangeMax` by at
most 0.5, and stays within the range whenever `espressoRangeMax` is an
integer setting. -/
theorem grind_bounds (tables : RefTables) (input : AlgorithmInput)
    (out : AlgorithmOutput) (h : calculateRecipe tables input = Except.ok out) :
    (∀ v, out.recommendedGrindSetting = GrindSetting.stepped v →
      input.profile.grinder.espressoRangeMin ≤ v ∧
        v ≤ input.profile.grinder.espressoRangeMax + 1 / 2 ∧
        (∀ n : ℤ, input.profile.grinder.espressoRangeMax = (n : ℚ) →
          v ≤ input.profile.grinder.espressoRangeMax)) ∧
    (∀ mn mx, out.recommendedGrindSetting = GrindSetting.stepless mn mx →
      (input.profile.grinder.espressoRangeMin ≤ mn ∧
        mn ≤ input.profile.grinder.espressoRangeMax) ∧
      (input.profile.grinder.espressoRangeMin ≤ mx ∧
        mx ≤ input.profile.grinder.espressoRangeMax)) := by
  obtain ⟨⟨-, h2, -, -, -⟩, rfl⟩ := ok_dest tables input out h
  have hrange : input.profile.grinder.espressoRangeMin ≤
      input.profile.grinder.espressoRangeMax := le_of_lt (not_le.mp h2)
  obtain ⟨hc1, hc2⟩ := grindClamped_mem tables input hrange
  set c := grindClamped tables input with hcdef
  constructor
  · intro v hv
    simp only [computeOutput, calculateGrindSetting] at hv
    split at hv
    · obtain rfl := GrindSetting.stepped.inj hv
      refine ⟨le_max_left _ _, ?_, ?_⟩
      · apply max_le (by linarith)
        have := jsRound_le c
        linarith
      · intro n hn
        apply max_le hrange
        rw [hn]
        exact_mod_cast jsRound_le_int (by rw [← hn]; exact hc2)
    · exact absurd hv (by simp)
  · intro mn mx hv
    simp only [computeOutput, calculateGrindSetting] at hv
    split at hv
    · exact absurd hv (by simp)
    · obtain ⟨rfl, rfl⟩ := GrindSetting.stepless.inj hv
      have hlo : (jsRound ((c - 1 / 2) * 10) : ℚ) / 10 ≤ c := by
        have := jsRound_le ((c - 1 / 2) * 10)
        linarith
      have hhi : c ≤ (jsRound ((c + 1 / 2) * 10) : ℚ) / 10 := by
        have := lt_jsRound ((c + 1 / 2) * 10)
        linarith
      exact ⟨⟨le_max_left _ _, max_le hrange (le_trans hlo hc2)⟩,
        ⟨le_trans hc1 (le_min hc2 hhi), min_le_left _ _⟩⟩

/-- Witness for C2 at the calibration input (stepped value 4 within [1, 20]). -/
theorem grind_bounds_witness :
    (1 : ℚ) ≤ 4 ∧ (4 : ℚ) ≤ 20 + 1 / 2 ∧
      (∀ n : ℤ, (calibrationInput 550 MachineType.other 25 30
          ).profile.grinder.espressoRangeMax = (n : ℚ) →
        (4 : ℚ) ≤ (calibrationInput 550 MachineType.other 25 30
          ).profile.grinder.espressoRangeMax) := by
  have h := (grind_bounds emptyTables (calibrationInput 550 MachineType.other 25 30) _
    (calculateRecipe_ok _ _ (by
      refine ⟨?_, ?_, ?_, ?_, ?_⟩ <;>
        norm_num [calibrationInput, encoreESP, stilosa, smallBasket]))).1 4 (by
      simp +decide only [computeOutput, calculateGrindSetting, grindClamped,
        grindAfterCompound2, grindBeforeCompound2, calibrationInput, encoreESP, stilosa,
        smallBasket, emptyTables, roastMicrons, processMicrons, freshnessMicrons,
        freshnessMicronsRaw, lookupShift, micronsToSteps, micronsToStepsFallback, jsRound]
      norm_num [max_def, min_def])
  simpa [calibrationInput, encoreESP] using h

-- ============================================================
-- Claim C3: dose bounds and half-gram granularity (corrected)
-- ============================================================

/-- A rational is an integer multiple of 0.5. -/
def isHalfStep (q : ℚ) : Prop := ∃ k : ℤ, q = (k : ℚ) / 2

/-- Extracts the recommended dose from an engine result. -/
def doseOf (r : Except ValidationError AlgorithmOutput) : Option ℚ :=
  match r with
  | Except.ok o => some o.recommendedDoseG
  | Except.error _ => none

/-- Valid input whose basket capacity bounds (16.3 g – 16.4 g) are not
half-gram values, so the final clamp lands off the half-gram grid. -/
def c3Input : AlgorithmInput :=
  { profile :=
      { machine := neutralMachine
        grinder := encoreESP 500
        basket :=
          { basketType := BasketType.nonPressurized
            sizeMm := 58
            capacityMinG := 163 / 10
            capacityMaxG := 82 / 5
            isBottomless := false } }
    bean :=
      { beanType := BeanType.singleOrigin
        roastLevel := RoastLevel.medium
        processMethod := ProcessMethod.washed
        roastDateDaysAgo := 10
        originId := none
        varietalId := none
        blendProfile := none
        dominantOriginId := none }
    targets :=
      { ratio := 2
        brewTimeMinSec := 25
        brewTimeMaxSec := 30
        tastePreference := TastePreference.balanced }
    weather := { temperatureC := 20, humidity := 50 } }

/-- Counterexample to C3 as stated: with capacity 16.3–16.4 g the rounded
midpoint 16.5 g is clamped to 16.4 g, which is not a multiple of 0.5. -/
theorem dose_half_step_cex :
    doseOf (calculateRecipe emptyTables c3Input) = some (82 / 5) ∧
      ¬isHalfStep (82 / 5) := by
  constructor
  · rw [calculateRecipe_ok emptyTables c3Input (by
      refine ⟨?_, ?_, ?_, ?_, ?_⟩ <;> norm_num [c3Input, encoreESP, neutralMachine])]
    simp +decide only [doseOf, computeOutput, calculateDose, doseBeforeRound, c3Input,
      neutralMachine, jsRound]
    norm_num [max_def, min_def]
  · rintro ⟨k, hk⟩
    have h164 : ((5 * k : ℤ) : ℚ) = 164 := by push_cast; linarith
    have : (5 * k : ℤ) = 164 := by exact_mod_cast h164
    omega

/-- C3 amended: for every input that passes validation the dose stays within
the basket capacity range, and it is a multiple of 0.5 whenever both
capacity bounds are themselves multiples of 0.5 (the final clamp can
otherwise land on an off-grid capacity bound). -/
theorem dose_bounds (tables : RefTables) (input : AlgorithmInput)
    (out : AlgorithmOutput) (h : calculateRecipe tables input = Except.ok out) :
    input.profile.basket.capacityMinG ≤ out.recommendedDoseG ∧
      out.recommendedDoseG ≤ input.profile.basket.capacityMaxG ∧
      (isHalfStep input.profile.basket.capacityMinG →
        isHalfStep input.profile.basket.capacityMaxG →
        isHalfStep out.recommendedDoseG) := by
  obtain ⟨⟨h1, -, -, -, -⟩, rfl⟩ := ok_dest tables input out h
  have hcap : input.profile.basket.capacityMinG ≤ input.profile.basket.capacityMaxG :=
    le_of_not_lt (by simpa using h1)
  have hdose : (computeOutput tables input).recommendedDoseG = calculateDose input := rfl
  rw [hdose, calculateDose]
  refine ⟨le_max_left _ _, max_le hcap (min_le_left _ _), ?_⟩
  rintro ⟨a, ha⟩ ⟨b, hb⟩
  rcases max_choice input.profile.basket.capacityMinG
      (min input.profile.basket.capacityMaxG
        ((jsRound (doseBeforeRound input * 2) : ℚ) / 2)) with hm | hm <;> rw [hm]
  · exact ⟨a, ha⟩
  · rcases min_choice input.profile.basket.capacityMaxG
        ((jsRound (doseBeforeRound input * 2) : ℚ) / 2) with hn | hn <;> rw [hn]
    · exact ⟨b, hb⟩
    · exact ⟨jsRound (doseBeforeRound input * 2), rfl⟩

/-- Witness for C3 at the calibration input (dose 17.5 g within 16–18 g). -/
theorem dose_bounds_witness :
    (calibrationInput 550 MachineType.other 25 30).profile.basket.capacityMinG ≤
        (computeOutput emptyTables
          (calibrationInput 550 MachineType.other 25 30)).recommendedDoseG ∧
      (computeOutput emptyTables
          (calibrationInput 550 MachineType.other 25 30)).recommendedDoseG ≤
        (calibrationInput 550 MachineType.other 25 30).profile.basket.capacityMaxG ∧
      (isHalfStep (calibrationInput 550 MachineType.other 25 30
          ).profile.basket.capacityMinG →
        isHalfStep (calibrationInput 550 MachineType.other 25 30
          ).profile.basket.capacityMaxG →
        isHalfStep (computeOutput emptyTables
          (calibrationInput 550 MachineType.other 25 30)).recommendedDoseG) :=
  dose_bounds emptyTables (calibrationInput 550 MachineType.other 25 30) _
    (calculateRecipe_ok _ _ (by
      refine ⟨?_, ?_, ?_, ?_, ?_⟩ <;>
        norm_num [calibrationInput, encoreESP, stilosa, smallBasket]))

-- ============================================================
-- Claim C5: micron-to-step guard behavior (corrected)
-- ============================================================

/-- A grinder with an empty espresso range and no declared micron-per-step:
the fallback division applies. -/
def c5Grinder : Grinder :=
  { burrType := BurrType.flat
    burrSizeMm := 40
    rpm := 500
    espressoRangeMin := 5
    espressoRangeMax := 5
    totalSettings := 10
    steppedOrStepless := SteppedOrStepless.stepped
    micronPerStep := none }

/-- Counterexample to C5 as stated: with `rangeSize = 0` and finite microns
20, the conversion contributes 2 steps (the 10 µm/step fallback), not zero. -/
theorem zero_steps_cex :
    micronsToSteps (JsNum.num 20) c5Grinder = 2 ∧
      c5Grinder.espressoRangeMax - c5Grinder.espressoRangeMin ≤ 0 ∧ (2 : ℚ) ≠ 0 := by
  refine ⟨?_, by norm_num [c5Grinder], by norm_num⟩
  norm_num [micronsToSteps, micronsToStepsFallback, c5Grinder, FALLBACK_MICRON_PER_STEP]

/-- C5 amended: a non-finite micron value contributes exactly zero steps;
when `rangeSize ≤ 0` and no positive `micronPerStep` is declared, the
conversion instead falls back to `FALLBACK_MICRON_PER_STEP` (10 µm/step),
contributing `microns / 10` steps; a declared positive `micronPerStep` is
used without consulting the range. -/
theorem micronsToSteps_guards (g : Grinder) (m : ℚ) :
    micronsToSteps JsNum.nonFinite g = 0 ∧
      (g.espressoRangeMax - g.espressoRangeMin ≤ 0 →
        (∀ mps, g.micronPerStep = some mps → mps ≤ 0) →
        micronsToSteps (JsNum.num m) g = m / FALLBACK_MICRON_PER_STEP) ∧
      (∀ mps, g.micronPerStep = some mps → 0 < mps →
        micronsToSteps (JsNum.num m) g = m / mps) := by
  refine ⟨rfl, ?_, ?_⟩
  · intro hr hmps
    rcases hg : g.micronPerStep with _ | mps
    · simp only [micronsToSteps, micronsToStepsFallback, hg]
      rw [if_pos hr]
    · simp only [micronsToSteps, micronsToStepsFallback, hg]
      rw [if_neg (not_lt.mpr (hmps mps hg)), if_pos hr]
  · intro mps hg hpos
    simp only [micronsToSteps, hg]
    rw [if_pos hpos]

/-- Witness for C5 at the empty-range grinder with microns 20. -/
theorem micronsToSteps_guards_witness :
    micronsToSteps JsNum.nonFinite c5Grinder = 0 ∧
      micronsToSteps (JsNum.num 20) c5Grinder = 20 / FALLBACK_MICRON_PER_STEP := by
  obtain ⟨w1, w2, -⟩ := micronsToSteps_guards c5Grinder 20
  exact ⟨w1, w2 (by norm_num [c5Grinder]) (by intro mps hmps; simp [c5Grinder] at hmps)⟩

-- ============================================================
-- Claim C1: documented calibration scenario
-- ============================================================

/-- C1: for the documented calibration input — Encore ESP (range 1–20,
20 µm/step, stepped, RPM ≤ 1200), Stilosa (15 bar, 184 ml/min, no PID,
non-lever), 51 mm non-pressurized bottomless basket (16–18 g), medium washed
beans 14 days off roast with no origin/varietal modifiers, ratio 2.0,
balanced taste, 20 °C / 50 % weather — the engine returns a stepped grind
setting in the closed range [4, 5] (it is exactly 4). -/
theorem calibration_scenario (rpm tmin tmax : ℚ) (mt : MachineType)
    (hrpm : rpm ≤ 1200) (hm1 : mt ≠ MachineType.leverManual)
    (hm2 : mt ≠ MachineType.leverSpring) (ht : tmin < tmax) :
    ∃ v : ℚ, grindOf (calculateRecipe emptyTables (calibrationInput rpm mt tmin tmax)) =
        some (GrindSetting.stepped v) ∧ 4 ≤ v ∧ v ≤ 5 := by
  refine ⟨4, ?_, by norm_num, by norm_num⟩
  rw [calculateRecipe_ok emptyTables _ (by
    refine ⟨?_, ?_, ?_, ?_, ?_⟩ <;>
      norm_num [calibrationInput, encoreESP, stilosa, smallBasket, ht])]
  have hrpm2 : ¬((1200 : ℚ) < rpm) := not_lt.mpr hrpm
  have hlever : ¬(mt = MachineType.leverManual ∨ mt = MachineType.leverSpring) := by
    rintro (h | h)
    · exact hm1 h
    · exact hm2 h
  simp +decide only [grindOf, computeOutput, calculateGrindSetting, grindClamped,
    grindAfterCompound2, grindBeforeCompound2, calibrationInput, encoreESP, stilosa,
    smallBasket, emptyTables, roastMicrons, processMicrons, freshnessMicrons,
    freshnessMicronsRaw, lookupShift, micronsToSteps, micronsToStepsFallback, jsRound,
    hrpm2, hlever]
  norm_num [max_def, min_def]

/-- Witness for C1 at RPM 550, a non-lever machine type and window 25–30 s. -/
theorem calibration_scenario_witness :
    ∃ v : ℚ, grindOf (calculateRecipe emptyTables
        (calibrationInput 550 MachineType.other 25 30)) =
        some (GrindSetting.stepped v) ∧ 4 ≤ v ∧ v ≤ 5 :=
  calibration_scenario 550 25 30 MachineType.other (by norm_num) (by decide) (by decide)
    (by norm_num)

-- ============================================================
-- Claim C6: brew-time estimate formula (corrected)
-- ============================================================

/-- Extracts the expected brew-time window from an engine result. -/
def brewTimeOf (r : Except ValidationError AlgorithmOutput) : Option BrewTime :=
  match r with
  | Except.ok o => some o.expectedBrewTimeSec
  | Except.error _ => none

/-- Spec-side net brew-time shift: the grind-position term (add
`3 + (0.4 − p)·10` when `p < 0.4`, subtract `3 + (p − 0.6)·10` when
`p > 0.6`, else nothing) plus the ratio term (−3 when ratio < 1.8, +5 when
ratio > 2.5). -/
def specBrewShift (input : AlgorithmInput) (position : ℚ) : ℚ :=
  (if position < 2 / 5 then 3 + (2 / 5 - position) * 10
    else if 3 / 5 < position then -(3 + (position - 3 / 5) * 10)
    else 0) +
  (if input.targets.ratio < 9 / 5 then -3
    else if 5 / 2 < input.targets.ratio then 5
    else 0)

/-- The brew-time window exactly as claim C6 words it: apply the net shift to
both target bounds, floor the shifted minimum at 15 s and the shifted
maximum at 20 s, and report lesser/greater — with no integer rounding. -/
def specBrewTimeNoRound (input : AlgorithmInput) (grindSetting : GrindSetting) : BrewTime :=
  let grinder := input.profile.grinder
  let actualSetting :=
    match grindSetting with
    | GrindSetting.stepped v => v
    | GrindSetting.stepless mn mx => (mn + mx) / 2
  let position := (actualSetting - grinder.espressoRangeMin) /
    (grinder.espressoRangeMax - grinder.espressoRangeMin)
  let shift := specBrewShift input position
  let lo := max 15 (input.targets.brewTimeMinSec + shift)
  let hi := max 20 (input.targets.brewTimeMaxSec + shift)
  { min := min lo hi, max := max lo hi }

/-- The amended brew-time spec: as `specBrewTimeNoRound`, but each floored
bound is additionally rounded to the nearest whole second before the
order-safe min/max. -/
def specBrewTime (input : AlgorithmInput) (grindSetting : GrindSetting) : BrewTime :=
  let grinder := input.profile.grinder
  let actualSetting :=
    match grindSetting with
    | GrindSetting.stepped v => v
    | GrindSetting.stepless mn mx => (mn + mx) / 2
  let position := (actualSetting - grinder.espressoRangeMin) /
    (grinder.espressoRangeMax - grinder.espressoRangeMin)
  let shift := specBrewShift input position
  let lo := (jsRound (max 15 (input.targets.brewTimeMinSec + shift)) : ℚ)
  let hi := (jsRound (max 20 (input.targets.brewTimeMaxSec + shift)) : ℚ)
  { min := min lo hi, max := max lo hi }

theorem brew_shift_eq (p r : ℚ) :
    (if r < 9 / 5 then
        (if p < 2 / 5 then 3 + (2 / 5 - p) * 10
          else if 3 / 5 < p then -3 - (p - 3 / 5) * 10
          else 0) - 3
      else if 5 / 2 < r then
        (if p < 2 / 5 then 3 + (2 / 5 - p) * 10
          else if 3 / 5 < p then -3 - (p - 3 / 5) * 10
          else 0) + 5
      else
        (if p < 2 / 5 then 3 + (2 / 5 - p) * 10
          else if 3 / 5 < p then -3 - (p - 3 / 5) * 10
          else 0)) =
      (if p < 2 / 5 then 3 + (2 / 5 - p) * 10
        else if 3 / 5 < p then -(3 + (p - 3 / 5) * 10)
        else 0) +
      (if r < 9 / 5 then -3 else if 5 / 2 < r then 5 else 0) := by
  split_ifs <;> ring

theorem estimateBrewTime_eq_spec (input : AlgorithmInput) (gs : GrindSetting) :
    estimateBrewTime input gs = specBrewTime input gs := by
  unfold estimateBrewTime specBrewTime specBrewShift
  simp only []
  rw [brew_shift_eq]

/-- Counterexample to C6 as stated: at the calibration input the engine
reports the window {30, 35}, but the claimed (un-rounded) formula applied to
the chosen setting 4 gives {578/19, 673/19} ≈ {30.42, 35.42}. -/
theorem brew_time_formula_cex :
    brewTimeOf (calculateRecipe emptyTables (calibrationInput 550 MachineType.other 25 30)) =
        some { min := 30, max := 35 } ∧
      grindOf (calculateRecipe emptyTables (calibrationInput 550 MachineType.other 25 30)) =
        some (GrindSetting.stepped 4) ∧
      specBrewTimeNoRound (calibrationInput 550 MachineType.other 25 30)
          (GrindSetting.stepped 4) = { min := 578 / 19, max := 673 / 19 } ∧
      ({ min := 30, max := 35 } : BrewTime) ≠ { min := 578 / 19, max := 673 / 19 } := by
  have hok := calculateRecipe_ok emptyTables (calibrationInput 550 MachineType.other 25 30) (by
    refine ⟨?_, ?_, ?_, ?_, ?_⟩ <;>
      norm_num [calibrationInput, encoreESP, stilosa, smallBasket])
  refine ⟨?_, ?_, ?_, by simp; norm_num⟩
  · rw [hok]
    simp +decide only [brewTimeOf, computeOutput, estimateBrewTime, calculateGrindSetting,
      grindClamped, grindAfterCompound2, grindBeforeCompound2, calibrationInput, encoreESP,
      stilosa, smallBasket, emptyTables, roastMicrons, processMicrons, freshnessMicrons,
      freshnessMicronsRaw, lookupShift, micronsToSteps, micronsToStepsFallback, jsRound]
    norm_num [max_def, min_def]
  · rw [hok]
    simp +decide only [grindOf, computeOutput, calculateGrindSetting, grindClamped,
      grindAfterCompound2, grindBeforeCompound2, calibrationInput, encoreESP, stilosa,
      smallBasket, emptyTables, roastMicrons, processMicrons, freshnessMicrons,
      freshnessMicronsRaw, lookupShift, micronsToSteps, micronsToStepsFallback, jsRound]
    norm_num [max_def, min_def]
  · simp +decide only [specBrewTimeNoRound, specBrewShift, calibrationInput, encoreESP,
      stilosa, smallBasket]
    norm_num [max_def, min_def]

/-- C6 amended: the expected brew time equals the claimed procedure with one
addition — after flooring the shifted minimum at 15 s and the shifted
maximum at 20 s, each bound is rounded to the nearest whole second before
the order-safe min/max. -/
theorem brew_time_estimate (tables : RefTables) (input : AlgorithmInput)
    (out : AlgorithmOutput) (h : calculateRecipe tables input = Except.ok out) :
    out.expectedBrewTimeSec = specBrewTime input out.recommendedGrindSetting := by
  obtain ⟨-, rfl⟩ := ok_dest tables input out h
  simp only [computeOutput]
  exact estimateBrewTime_eq_spec input (calculateGrindSetting tables input)

/-- Witness for C6 at the calibration input. -/
theorem brew_time_estimate_witness :
    (computeOutput emptyTables
        (calibrationInput 550 MachineType.other 25 30)).expectedBrewTimeSec =
      specBrewTime (calibrationInput 550 MachineType.other 25 30)
        (computeOutput emptyTables
          (calibrationInput 550 MachineType.other 25 30)).recommendedGrindSetting :=
  brew_time_estimate emptyTables (calibrationInput 550 MachineType.other 25 30) _
    (calculateRecipe_ok _ _ (by
      refine ⟨?_, ?_, ?_, ?_, ?_⟩ <;>
        norm_num [calibrationInput, encoreESP, stilosa, smallBasket]))

-- ============================================================
-- Claim C7: roast-level monotonicity of the grind setting
-- ============================================================

/-- The same input with the roast level replaced. -/
def setRoast (input : AlgorithmInput) (r : RoastLevel) : AlgorithmInput :=
  { input with bean := { input.bean with roastLevel := r } }

@[simp]
theorem setRoast_profile (input : AlgorithmInput) (r : RoastLevel) :
    (setRoast input r).profile = input.profile := rfl

@[simp]
theorem setRoast_targets (input : AlgorithmInput) (r : RoastLevel) :
    (setRoast input r).targets = input.targets := rfl

@[simp]
theorem setRoast_weather (input : AlgorithmInput) (r : RoastLevel) :
    (setRoast input r).weather = input.weather := rfl

@[simp]
theorem setRoast_roastLevel (input : AlgorithmInput) (r : RoastLevel) :
    (setRoast input r).bean.roastLevel = r := rfl

@[simp]
theorem setRoast_processMethod (input : AlgorithmInput) (r : RoastLevel) :
    (setRoast input r).bean.processMethod = input.bean.processMethod := rfl

@[simp]
theorem setRoast_roastDateDaysAgo (input : AlgorithmInput) (r : RoastLevel) :
    (setRoast input r).bean.roastDateDaysAgo = input.bean.roastDateDaysAgo := rfl

@[simp]
theorem setRoast_beanType (input : AlgorithmInput) (r : RoastLevel) :
    (setRoast input r).bean.beanType = input.bean.beanType := rfl

@[simp]
theorem setRoast_varietalId (input : AlgorithmInput) (r : RoastLevel) :
    (setRoast input r).bean.varietalId = input.bean.varietalId := rfl

@[simp]
theorem setRoast_originId (input : AlgorithmInput) (r : RoastLevel) :
    (setRoast input r).bean.originId = input.bean.originId := rfl

@[simp]
theorem setRoast_blendProfile (input : AlgorithmInput) (r : RoastLevel) :
    (setRoast input r).bean.blendProfile = input.bean.blendProfile := rfl

@[simp]
theorem setRoast_dominantOriginId (input : AlgorithmInput) (r : RoastLevel) :
    (setRoast input r).bean.dominantOriginId = input.bean.dominantOriginId := rfl

theorem guarded_add (c : Prop) [Decidable c] (s x : ℚ) :
    (if c then s + x else s) = s + (if c then x else 0) := by
  split <;> simp

theorem guarded_add_add (c : Prop) [Decidable c] (s x y : ℚ) :
    (if c then s + x else s + y) = s + (if c then x else y) := by
  split <;> rfl

/-- The lookup contribution is a translation of the running setting. -/
def lookupDelta (tables : RefTables) (bean : BeanInfo) (grinder : Grinder) : ℚ :=
  lookupShift tables bean grinder 0

theorem lookupShift_eq_add (tables : RefTables) (bean : BeanInfo) (grinder : Grinder)
    (s : ℚ) : lookupShift tables bean grinder s = s + lookupDelta tables bean grinder := by
  rw [lookupDelta]
  unfold lookupShift
  split
  · rcases bean.varietalId with _ | vid
    · rcases bean.originId with _ | oid
      · ring
      · simp only []
        rcases tables.originModifier oid with _ | em <;>
          simp only [guarded_add, guarded_add_add, ite_self] <;> ring
    · rcases bean.originId with _ | oid
      · simp only []
        rcases tables.varietalModifier vid with _ | em <;>
          simp only [guarded_add, guarded_add_add, ite_self] <;> ring
      · simp only []
        rcases tables.varietalModifier vid with _ | em1 <;>
          rcases tables.originModifier oid with _ | em2 <;>
          simp only [guarded_add, guarded_add_add, ite_self] <;> ring
  · rcases bean.blendProfile with _ | bp
    · rcases bean.dominantOriginId with _ | oid
      · ring
      · simp only []
        rcases tables.originModifier oid with _ | em <;>
          simp only [guarded_add, guarded_add_add, ite_self] <;> ring
    · rcases bean.dominantOriginId with _ | oid
      · simp only []
        rcases tables.blendModifier bp with _ | em <;>
          simp only [guarded_add, guarded_add_add, ite_self] <;> ring
      · simp only []
        rcases tables.blendModifier bp with _ | em1 <;>
          rcases tables.originModifier oid with _ | em2 <;>
          simp only [guarded_add, guarded_add_add, ite_self] <;> ring

/-- The roast-dependent compound condition of `calculateGrindSetting`
(fresh beans, dark or medium-dark roast, warm room). -/
def roastHeat (input : AlgorithmInput) (r : RoastLevel) : Prop :=
  input.bean.roastDateDaysAgo < 7 ∧
    (r = RoastLevel.dark ∨ r = RoastLevel.mediumDark) ∧
    28 < input.weather.temperatureC

instance (input : AlgorithmInput) (r : RoastLevel) : Decidable (roastHeat input r) := by
  unfold roastHeat
  infer_instance

/-- Total micron contribution of the roast level: its table entry plus the
20 µm fresh-dark-warm compound shift when that fires. -/
def roastTermMicrons (input : AlgorithmInput) (r : RoastLevel) : ℚ :=
  roastMicrons r + (if roastHeat input r then 20 else 0)

theorem lookupDelta_setRoast (tables : RefTables) (input : AlgorithmInput) (r : RoastLevel)
    (grinder : Grinder) :
    lookupDelta tables (setRoast input r).bean grinder =
      lookupDelta tables input.bean grinder := rfl

theorem grindBefore_setRoast (tables : RefTables) (input : AlgorithmInput) (r : RoastLevel) :
    grindBeforeCompound2 tables (setRoast input r) =
      grindBeforeCompound2 tables (setRoast input RoastLevel.medium) +
        stepFactor input.profile.grinder * roastTermMicrons input r := by
  cases r <;>
    simp +decide only [grindBeforeCompound2, roastMicrons, roastTermMicrons, roastHeat,
      setRoast_profile, setRoast_targets, setRoast_weather, setRoast_roastLevel,
      setRoast_processMethod, setRoast_roastDateDaysAgo, setRoast_beanType,
      setRoast_varietalId, setRoast_originId, setRoast_blendProfile,
      setRoast_dominantOriginId, lookupShift_eq_add, lookupDelta_setRoast,
      micronsToSteps_num, guarded_add, guarded_add_add, mul_ite, mul_zero, mul_add,
      true_and, and_true, false_and, and_false, true_or, or_true, false_or, or_false,
      if_true, if_false, mul_comm] <;>
    ring

theorem roastTermMicrons_gap (input : AlgorithmInput) (r1 r2 : RoastLevel)
    (h : roastIdx r1 ≤ roastIdx r2) :
    roastTermMicrons input r1 = roastTermMicrons input r2 ∨
      roastTermMicrons input r1 + 20 ≤ roastTermMicrons input r2 := by
  by_cases hd : input.bean.roastDateDaysAgo < 7 ∧ 28 < input.weather.temperatureC
  · cases r1 <;> cases r2 <;>
      simp_all [roastTermMicrons, roastHeat, roastMicrons, roastIdx, hd.1, hd.2] <;>
      norm_num
  · have hfalse : ∀ r, ¬roastHeat input r := fun r hr => hd ⟨hr.1, hr.2.2⟩
    cases r1 <;> cases r2 <;>
      simp_all [roastTermMicrons, roastMicrons, roastIdx] <;> norm_num

theorem compound2_shape_mono {H : Prop} [Decidable H] {θ d x1 x2 : ℚ} (hd : 0 < d)
    (hgap : x1 = x2 ∨ x1 + 2 * d ≤ x2) :
    (if H ∧ x1 < θ then x1 + d else x1) ≤ (if H ∧ x2 < θ then x2 + d else x2) := by
  rcases hgap with rfl | hgap
  · exact le_refl _
  · split_ifs <;> linarith

theorem grindAfter_mono (tables : RefTables) (input : AlgorithmInput) (r1 r2 : RoastLevel)
    (h : roastIdx r1 ≤ roastIdx r2) :
    grindAfterCompound2 tables (setRoast input r1) ≤
      grindAfterCompound2 tables (setRoast input r2) := by
  have hf := stepFactor_pos input.profile.grinder
  have h1 := grindBefore_setRoast tables input r1
  have h2 := grindBefore_setRoast tables input r2
  have hgap := roastTermMicrons_gap input r1 r2 h
  unfold grindAfterCompound2
  simp only [setRoast_profile, setRoast_weather, micronsToSteps_num]
  apply compound2_shape_mono (by linarith)
  rcases hgap with he | hg
  · left
    rw [h1, h2, he]
  · right
    rw [h1, h2]
    have hmul : stepFactor input.profile.grinder * (roastTermMicrons input r1 + 20) ≤
        stepFactor input.profile.grinder * roastTermMicrons input r2 :=
      mul_le_mul_of_nonneg_left hg (le_of_lt hf)
    nlinarith [hmul]

theorem grindClamped_mono (tables : RefTables) (input : AlgorithmInput) (r1 r2 : RoastLevel)
    (h : roastIdx r1 ≤ roastIdx r2) :
    grindClamped tables (setRoast input r1) ≤ grindClamped tables (setRoast input r2) := by
  unfold grindClamped
  simp only [setRoast_profile]
  exact max_le_max (le_refl _) (min_le_min (le_refl _) (grindAfter_mono tables input r1 r2 h))

/-- Pointwise order on grind recommendations of the same shape. -/
def grindLe : GrindSetting → GrindSetting → Prop
  | GrindSetting.stepped v1, GrindSetting.stepped v2 => v1 ≤ v2
  | GrindSetting.stepless mn1 mx1, GrindSetting.stepless mn2 mx2 => mn1 ≤ mn2 ∧ mx1 ≤ mx2
  | _, _ => False

/-- C7: holding everything else fixed, moving the roast level darker in the
order light → medium-light → medium → medium-dark → dark never decreases the
grind recommendation returned by `calculateRecipe` — neither a stepped value
nor either end of a stepless range. -/
theorem roast_monotonicity (tables : RefTables) (input : AlgorithmInput)
    (r1 r2 : RoastLevel) (out1 out2 : AlgorithmOutput)
    (h : roastIdx r1 ≤ roastIdx r2)
    (h1 : calculateRecipe tables (setRoast input r1) = Except.ok out1)
    (h2 : calculateRecipe tables (setRoast input r2) = Except.ok out2) :
    grindLe out1.recommendedGrindSetting out2.recommendedGrindSetting := by
  obtain ⟨-, rfl⟩ := ok_dest _ _ _ h1
  obtain ⟨-, rfl⟩ := ok_dest _ _ _ h2
  have hcl := grindClamped_mono tables input r1 r2 h
  show grindLe (calculateGrindSetting tables (setRoast input r1))
    (calculateGrindSetting tables (setRoast input r2))
  unfold calculateGrindSetting
  simp only [setRoast_profile]
  split_ifs with hs
  · simp only [grindLe]
    exact max_le_max (le_refl _) (by exact_mod_cast jsRound_mono hcl)
  · simp only [grindLe]
    constructor
    · apply max_le_max (le_refl _)
      have hj : (jsRound ((grindClamped tables (setRoast input r1) - 1 / 2) * 10) : ℚ) ≤
          (jsRound ((grindClamped tables (setRoast input r2) - 1 / 2) * 10) : ℚ) := by
        exact_mod_cast jsRound_mono (by linarith)
      linarith
    · apply min_le_min (le_refl _)
      have hj : (jsRound ((grindClamped tables (setRoast input r1) + 1 / 2) * 10) : ℚ) ≤
          (jsRound ((grindClamped tables (setRoast input r2) + 1 / 2) * 10) : ℚ) := by
        exact_mod_cast jsRound_mono (by linarith)
      linarith

/-- Witness for C7: light versus dark roast at the calibration input. -/
theorem roast_monotonicity_witness :
    grindLe
      (computeOutput emptyTables
        (setRoast (calibrationInput 550 MachineType.other 25 30)
          RoastLevel.light)).recommendedGrindSetting
      (computeOutput emptyTables
        (setRoast (calibrationInput 550 MachineType.other 25 30)
          RoastLevel.dark)).recommendedGrindSetting :=
  roast_monotonicity emptyTables (calibrationInput 550 MachineType.other 25 30)
    RoastLevel.light RoastLevel.dark _ _ (by decide)
    (calculateRecipe_ok _ _ (by
      refine ⟨?_, ?_, ?_, ?_, ?_⟩ <;>
        norm_num [setRoast, calibrationInput, encoreESP, stilosa, smallBasket]))
    (calculateRecipe_ok _ _ (by
      refine ⟨?_, ?_, ?_, ?_, ?_⟩ <;>
        norm_num [setRoast, calibrationInput, encoreESP, stilosa, smallBasket]))

end Dialing

